import Mathlib

/-!
Verification of the client protocol core in `src/bin/client.rs`.

Rust strings and byte buffers are modelled as `List Nat` of byte values
(< 256); `str::as_bytes` on a literal is `strBytes`.  SHA-256 and the
base64 standard alphabet are implemented in full so that signatures can
be evaluated on concrete inputs.  `u64` arithmetic is `Nat` with explicit
`% 2^64` where wrap-around matters.
-/

deriving instance DecidableEq for Except

/-- UTF-8 encoding of one character (model of Rust `char` encoding). -/
def charUtf8 (c : Char) : List Nat :=
  let n := c.toNat
  if n < 128 then [n]
  else if n < 2048 then [192 + n / 64, 128 + n % 64]
  else if n < 65536 then [224 + n / 4096, 128 + (n / 64) % 64, 128 + n % 64]
  else [240 + n / 262144, 128 + (n / 4096) % 64, 128 + (n / 64) % 64, 128 + n % 64]

/-- Bytes of a string (model of Rust `str::as_bytes`). -/
def strBytes (s : String) : List Nat :=
  (s.data.map charUtf8).flatten

/-- Decimal digits of `n`, fuel-driven so the kernel can evaluate it. -/
def natDecAux : Nat → Nat → List Nat
  | 0, _ => []
  | fuel + 1, n =>
    if n < 10 then [48 + n]
    else natDecAux fuel (n / 10) ++ [48 + n % 10]

/-- ASCII decimal rendering of a `u64` (model of Rust `Display` for `u64`). -/
def natDecimal (n : Nat) : List Nat :=
  natDecAux (n + 1) n

/-! ### SHA-256 (FIPS 180-4), as computed by the `sha2` crate -/

/-- 2^32, the word modulus. -/
def M32 : Nat := 4294967296

/-- Right rotation of a 32-bit word. -/
def rotr32 (n x : Nat) : Nat :=
  (x >>> n) ||| ((x <<< (32 - n)) % M32)

def shaCh (x y z : Nat) : Nat := (x &&& y) ^^^ ((x ^^^ 4294967295) &&& z)

def shaMaj (x y z : Nat) : Nat := (x &&& y) ^^^ (x &&& z) ^^^ (y &&& z)

def bigSigma0 (x : Nat) : Nat := rotr32 2 x ^^^ rotr32 13 x ^^^ rotr32 22 x

def bigSigma1 (x : Nat) : Nat := rotr32 6 x ^^^ rotr32 11 x ^^^ rotr32 25 x

def smallSigma0 (x : Nat) : Nat := rotr32 7 x ^^^ rotr32 18 x ^^^ (x >>> 3)

def smallSigma1 (x : Nat) : Nat := rotr32 17 x ^^^ rotr32 19 x ^^^ (x >>> 10)

/-- The 64 SHA-256 round constants. -/
def sha256K : List Nat :=
  [1116352408, 1899447441, 3049323471, 3921009573, 961987163,
   1508970993, 2453635748, 2870763221, 3624381080, 310598401,
   607225278, 1426881987, 1925078388, 2162078206, 2614888103,
   3248222580, 3835390401, 4022224774, 264347078, 604807628,
   770255983, 1249150122, 1555081692, 1996064986, 2554220882,
   2821834349, 2952996808, 3210313671, 3336571891, 3584528711,
   113926993, 338241895, 666307205, 773529912, 1294757372,
   1396182291, 1695183700, 1986661051, 2177026350, 2456956037,
   2730485921, 2820302411, 3259730800, 3345764771, 3516065817,
   3600352804, 4094571909, 275423344, 430227734, 506948616,
   659060556, 883997877, 958139571, 1322822218, 1537002063,
   1747873779, 1955562222, 2024104815, 2227730452, 2361852424,
   2428436474, 2756734187, 3204031479, 3329325298]

/-- The eight working variables of the compression function. -/
structure Sha256State where
  a : Nat
  b : Nat
  c : Nat
  d : Nat
  e : Nat
  f : Nat
  g : Nat
  h : Nat

/-- Initial hash value. -/
def sha256Init : Sha256State :=
  ⟨1779033703, 3144134277, 1013904242, 2773480762,
   1359893119, 2600822924, 528734635, 1541459225⟩

/-- One round of the compression function on word/constant pair `wk`. -/
def compressStep (st : Sha256State) (wk : Nat × Nat) : Sha256State :=
  let t1 := (st.h + bigSigma1 st.e + shaCh st.e st.f st.g + wk.2 + wk.1) % M32
  let t2 := (bigSigma0 st.a + shaMaj st.a st.b st.c) % M32
  ⟨(t1 + t2) % M32, st.a, st.b, st.c, (st.d + t1) % M32, st.e, st.f, st.g⟩

/-- Extend a 16-word block by `n` further schedule words. -/
def extendW (ws : List Nat) : Nat → List Nat
  | 0 => ws
  | n + 1 =>
    let prev := extendW ws n
    let i := prev.length
    prev ++ [(smallSigma1 (prev.getD (i - 2) 0) + prev.getD (i - 7) 0 +
              smallSigma0 (prev.getD (i - 15) 0) + prev.getD (i - 16) 0) % M32]

/-- Process one 512-bit block (given as 16 words). -/
def processBlock (hs : Sha256State) (block : List Nat) : Sha256State :=
  let ws := extendW block 48
  let st := (ws.zip sha256K).foldl compressStep hs
  ⟨(hs.a + st.a) % M32, (hs.b + st.b) % M32, (hs.c + st.c) % M32, (hs.d + st.d) % M32,
   (hs.e + st.e) % M32, (hs.f + st.f) % M32, (hs.g + st.g) % M32, (hs.h + st.h) % M32⟩

/-- Big-endian 64-bit length field of the padding. -/
def be64 (n : Nat) : List Nat :=
  [(n >>> 56) % 256, (n >>> 48) % 256, (n >>> 40) % 256, (n >>> 32) % 256,
   (n >>> 24) % 256, (n >>> 16) % 256, (n >>> 8) % 256, n % 256]

/-- SHA-256 padding: 0x80, zeros to 56 mod 64, then the bit length. -/
def padMessage (msg : List Nat) : List Nat :=
  msg ++ [128] ++ List.replicate ((119 - msg.length % 64) % 64) 0 ++ be64 (8 * msg.length)

/-- Group bytes into big-endian 32-bit words. -/
def bytesToWords : List Nat → List Nat
  | b0 :: b1 :: b2 :: b3 :: rest =>
    (b0 * 16777216 + b1 * 65536 + b2 * 256 + b3) :: bytesToWords rest
  | _ => []

/-- Split a word list into 16-word blocks (fuel-driven for kernel reduction). -/
def blocksAux : Nat → List Nat → List (List Nat)
  | 0, _ => []
  | _, [] => []
  | fuel + 1, ws => ws.take 16 :: blocksAux fuel (ws.drop 16)

/-- Big-endian bytes of one 32-bit word. -/
def wordBytes (w : Nat) : List Nat :=
  [(w >>> 24) % 256, (w >>> 16) % 256, (w >>> 8) % 256, w % 256]

/-- Serialize the final state to the 32-byte digest. -/
def digestBytes (st : Sha256State) : List Nat :=
  wordBytes st.a ++ wordBytes st.b ++ wordBytes st.c ++ wordBytes st.d ++
  wordBytes st.e ++ wordBytes st.f ++ wordBytes st.g ++ wordBytes st.h

/-- SHA-256 digest of a byte sequence. -/
def sha256 (msg : List Nat) : List Nat :=
  let ws := bytesToWords (padMessage msg)
  digestBytes ((blocksAux ws.length ws).foldl processBlock sha256Init)

/-! ### Base64 (standard alphabet with padding, as the `base64` crate's STANDARD engine) -/

/-- The standard-alphabet character (as a byte) of a six-bit value. -/
def b64Char (i : Nat) : Nat :=
  if i < 26 then 65 + i
  else if i < 52 then 97 + (i - 26)
  else if i < 62 then 48 + (i - 52)
  else if i = 62 then 43
  else 47

/-- Standard base64 encoding with `=` padding, on bytes. -/
def base64Encode : List Nat → List Nat
  | a :: b :: c :: rest =>
    b64Char (a / 4) :: b64Char (a % 4 * 16 + b / 16) :: b64Char (b % 16 * 4 + c / 64) ::
      b64Char (c % 64) :: base64Encode rest
  | [a, b] => [b64Char (a / 4), b64Char (a % 4 * 16 + b / 16), b64Char (b % 16 * 4), 61]
  | [a] => [b64Char (a / 4), b64Char (a % 4 * 16), 61, 61]
  | [] => []

/-- Six-bit value of a base64 alphabet byte (inverse of `b64Char`). -/
def b64Val (c : Nat) : Nat :=
  if 65 ≤ c ∧ c ≤ 90 then c - 65
  else if 97 ≤ c ∧ c ≤ 122 then c - 71
  else if 48 ≤ c ∧ c ≤ 57 then c + 4
  else if c = 43 then 62
  else if c = 47 then 63
  else 0

/-- Base64 decoding of well-formed encoder output, used to prove the
encoder injective. -/
def base64Decode : List Nat → List Nat
  | c0 :: c1 :: c2 :: c3 :: rest =>
    if c2 = 61 then [b64Val c0 * 4 + b64Val c1 / 16]
    else if c3 = 61 then
      [b64Val c0 * 4 + b64Val c1 / 16, b64Val c1 % 16 * 16 + b64Val c2 / 4]
    else
      (b64Val c0 * 4 + b64Val c1 / 16) :: (b64Val c1 % 16 * 16 + b64Val c2 / 4) ::
        (b64Val c2 % 4 * 64 + b64Val c3) :: base64Decode rest
  | _ => []

/-! ### The signing scheme (`Client::sign_request`, `Client::verify_response`) -/

/-- Model of the incremental `sha2::Sha256` hasher: the state is the
sequence of bytes fed so far, `finalize` hashes it. -/
structure Sha256Hasher where
  acc : List Nat

def Sha256Hasher.new : Sha256Hasher := ⟨[]⟩

def Sha256Hasher.update (h : Sha256Hasher) (bytes : List Nat) : Sha256Hasher :=
  ⟨h.acc ++ bytes⟩

def Sha256Hasher.finalize (h : Sha256Hasher) : List Nat := sha256 h.acc

/-- `Client::sign_request`: hash the data then the client key, base64 the digest. -/
def sign_request (client_key data : List Nat) : List Nat :=
  base64Encode ((Sha256Hasher.new.update data).update client_key).finalize

/-- `Client::verify_response`: recompute with the server key and compare. -/
def verify_response (server_key response_data signature : List Nat) : Bool :=
  base64Encode ((Sha256Hasher.new.update response_data).update server_key).finalize == signature

/-- The canonical string `"{client_id}:{timestamp}:{nonce}"` built in
`Client::send_request` (byte 58 is the colon). -/
def data_to_sign (client_id : List Nat) (timestamp : Nat) (nonce : List Nat) : List Nat :=
  client_id ++ [58] ++ natDecimal timestamp ++ [58] ++ nonce

/-! ### UTF-8 validity (model of Rust `String::from_utf8` acceptance) -/

def isCont (b : Nat) : Bool := 128 ≤ b && b ≤ 191

/-- Standard UTF-8 well-formedness of a byte sequence. -/
def validUtf8 : List Nat → Bool
  | [] => true
  | b :: rest =>
    if b ≤ 127 then validUtf8 rest
    else if 194 ≤ b && b ≤ 223 then
      match rest with
      | c1 :: r => isCont c1 && validUtf8 r
      | [] => false
    else if b = 224 then
      match rest with
      | c1 :: c2 :: r => (160 ≤ c1 && c1 ≤ 191) && isCont c2 && validUtf8 r
      | _ => false
    else if 225 ≤ b && b ≤ 236 then
      match rest with
      | c1 :: c2 :: r => isCont c1 && isCont c2 && validUtf8 r
      | _ => false
    else if b = 237 then
      match rest with
      | c1 :: c2 :: r => (128 ≤ c1 && c1 ≤ 159) && isCont c2 && validUtf8 r
      | _ => false
    else if 238 ≤ b && b ≤ 239 then
      match rest with
      | c1 :: c2 :: r => isCont c1 && isCont c2 && validUtf8 r
      | _ => false
    else if b = 240 then
      match rest with
      | c1 :: c2 :: c3 :: r => (144 ≤ c1 && c1 ≤ 191) && isCont c2 && isCont c3 && validUtf8 r
      | _ => false
    else if 241 ≤ b && b ≤ 243 then
      match rest with
      | c1 :: c2 :: c3 :: r => isCont c1 && isCont c2 && isCont c3 && validUtf8 r
      | _ => false
    else if b = 244 then
      match rest with
      | c1 :: c2 :: c3 :: r => (128 ≤ c1 && c1 ≤ 143) && isCont c2 && isCont c3 && validUtf8 r
      | _ => false
    else false

/-! ### `Client::stream_response`

The transport is modelled by the sequence of read outcomes it will
deliver: `.ok chunk` is a successful read returning `chunk.length`
bytes (at most `BUFFER_SIZE`), `.error e` a failed read.  Once the
list is exhausted the peer has closed and every further read returns
zero bytes, which is the `[]` case.  `String::from_utf8` is modelled
by returning the accumulated bytes after a UTF-8 well-formedness
check (a Rust `String` is exactly its UTF-8 bytes); the source
appends the error display to the "Invalid UTF-8 sequence: {e}"
message, which is abstracted to the bare message. -/

def BUFFER_SIZE : Nat := 8192

def utf8Finish (acc : List Nat) : Except String (List Nat) :=
  if validUtf8 acc then .ok acc else .error "Invalid UTF-8 sequence"

def streamGo : List (Except String (List Nat)) → List Nat → Nat → Except String (List Nat)
  | [], acc, total =>
    if total = 0 then .error "Connection closed by server" else utf8Finish acc
  | .error e :: _, _, _ => .error ("Failed to read response: " ++ e)
  | .ok chunk :: rest, acc, total =>
    if chunk.length = 0 then
      (if total = 0 then .error "Connection closed by server" else utf8Finish acc)
    else streamGo rest (acc ++ chunk) (total + chunk.length)

def stream_response (reads : List (Except String (List Nat))) : Except String (List Nat) :=
  streamGo reads [] 0

/-! ### `Client::load_session` and `Client::save_session`

File I/O and `serde_json` parsing are abstracted by their outcome:
`stored = none` is a failed `fs::read_to_string` (missing/unreadable
file), `stored = some none` content that fails to parse as
`SessionInfo`, and `stored = some (some s)` a successfully parsed
record.  `now - session.created_at` on `u64` is the wrapping
subtraction `u64sub`. -/

def U64 : Nat := 18446744073709551616

/-- Wrapping `u64` subtraction (arguments assumed `< 2^64`). -/
def u64sub (a b : Nat) : Nat := (U64 + a - b) % U64

structure SessionInfo where
  session_id : List Nat
  client_id : List Nat
  created_at : Nat
  last_used : Nat
deriving DecidableEq

def load_session (stored : Option (Option SessionInfo)) (now : Nat)
    (client_id : List Nat) : Option SessionInfo :=
  match stored with
  | some (some session) =>
    if u64sub now session.created_at ≤ 3600 ∧ session.client_id = client_id then some session
    else none
  | _ => none

/-! ### Wire types and their `serde_json` serialization -/

structure Response where
  status : Bool
  data : List Nat
  session_id : List Nat
  timestamp : Nat
  signature : List Nat
deriving DecidableEq

structure AuthRequest where
  client_id : List Nat
  timestamp : Nat
  nonce : List Nat
  signature : List Nat
  session_id : Option (List Nat)
  wql_query : List Nat
deriving DecidableEq

def hexDigitChar (n : Nat) : Nat := if n < 10 then 48 + n else 87 + n

/-- `serde_json` string escaping of one byte. -/
def jsonEscapeByte (b : Nat) : List Nat :=
  if b = 34 then [92, 34]
  else if b = 92 then [92, 92]
  else if b = 8 then [92, 98]
  else if b = 9 then [92, 116]
  else if b = 10 then [92, 110]
  else if b = 12 then [92, 102]
  else if b = 13 then [92, 114]
  else if b < 32 then [92, 117, 48, 48, hexDigitChar (b / 16), hexDigitChar (b % 16)]
  else [b]

def jsonString (s : List Nat) : List Nat :=
  [34] ++ (s.map jsonEscapeByte).flatten ++ [34]

def jsonBool (b : Bool) : List Nat := if b then strBytes "true" else strBytes "false"

def jsonOptString : Option (List Nat) → List Nat
  | some s => jsonString s
  | none => strBytes "null"

/-- `serde_json::to_string` of a `Response` (fields in declaration order). -/
def serializeResponse (r : Response) : List Nat :=
  strBytes "\x7b\"status\":" ++ jsonBool r.status ++
  strBytes ",\"data\":" ++ jsonString r.data ++
  strBytes ",\"session_id\":" ++ jsonString r.session_id ++
  strBytes ",\"timestamp\":" ++ natDecimal r.timestamp ++
  strBytes ",\"signature\":" ++ jsonString r.signature ++ strBytes "\x7d"

/-- `serde_json::to_string` of an `AuthRequest`. -/
def serializeAuthRequest (r : AuthRequest) : List Nat :=
  strBytes "\x7b\"client_id\":" ++ jsonString r.client_id ++
  strBytes ",\"timestamp\":" ++ natDecimal r.timestamp ++
  strBytes ",\"nonce\":" ++ jsonString r.nonce ++
  strBytes ",\"signature\":" ++ jsonString r.signature ++
  strBytes ",\"session_id\":" ++ jsonOptString r.session_id ++
  strBytes ",\"wql_query\":" ++ jsonString r.wql_query ++ strBytes "\x7d"

/-! ### The client and `Client::send_request` -/

structure Client where
  client_id : List Nat
  client_key : List Nat
  server_key : List Nat
  session : Option SessionInfo
deriving DecidableEq

/-- `Client::save_session`: writes the current session (if any) to the
session file; `write_result` is the outcome of `fs::write`.  The session
file content is modelled by the record it holds. -/
def save_session (c : Client) (write_result : Except String Unit)
    (file : Option SessionInfo) : Except String Unit × Option SessionInfo :=
  match c.session with
  | some s =>
    match write_result with
    | .ok _ => (.ok (), some s)
    | .error e => (.error e, file)
  | none => (.ok (), file)

/-- The environment of one exchange: the wall-clock timestamp, the fresh
UUID nonce, the outcome of `write_all`/`flush`, the transport's read
outcomes, and the outcome of `fs::write` inside `save_session`. -/
structure ExchangeEnv where
  timestamp : Nat
  nonce : List Nat
  write_result : Except String Unit
  reads : List (Except String (List Nat))
  save_result : Except String Unit

/-- `Client::send_request`.  `parse` is `serde_json::from_str::<Response>`;
the result is the returned value together with the client state and the
session-file state after the call. -/
def send_request (parse : List Nat → Except String Response) (env : ExchangeEnv)
    (c : Client) (wql_query : List Nat) (file : Option SessionInfo) :
    Except String Response × Client × Option SessionInfo :=
  let timestamp := env.timestamp
  let nonce := env.nonce
  let signature := sign_request c.client_key (data_to_sign c.client_id timestamp nonce)
  let request : AuthRequest :=
    { client_id := c.client_id, timestamp := timestamp, nonce := nonce,
      signature := signature, session_id := c.session.map SessionInfo.session_id,
      wql_query := wql_query }
  let _request_json := serializeAuthRequest request
  match env.write_result with
  | .error e => (.error e, c, file)
  | .ok _ =>
    match stream_response env.reads with
    | .error e => (.error e, c, file)
    | .ok response_str =>
      match parse response_str with
      | .error e => (.error e, c, file)
      | .ok response =>
        let sig := response.signature
        let cleared : Response := { response with signature := [] }
        let response_data := serializeResponse cleared
        if verify_response c.server_key response_data sig = true then
          let restored : Response := { cleared with signature := sig }
          let newSession : SessionInfo :=
            { session_id := restored.session_id, client_id := c.client_id,
              created_at := timestamp, last_used := timestamp }
          let c2 : Client := { c with session := some newSession }
          match save_session c2 env.save_result file with
          | (.error e, file2) => (.error e, c2, file2)
          | (.ok _, file2) => (.ok restored, c2, file2)
        else (.error "Invalid response signature", c, file)

/-! ### `connect_with_retry`

A connection attempt is `conn i : Except String (Except String Unit)`:
the outer `Except` is `TcpStream::connect` (retried), the inner one the
TLS handshake `connector.connect`, whose failure the source propagates
immediately with `?`.  The trace records attempts and sleeps. -/

def MAX_RETRIES : Nat := 3

def RETRY_DELAY_SECS : Nat := 1

inductive NetEvent
  | attempt (i : Nat)
  | slept (seconds : Nat)
deriving DecidableEq

def connectLoop (conn : Nat → Except String (Except String Unit)) :
    Nat → Nat → Option String → List NetEvent → Except String Unit × List NetEvent
  | 0, _, last, trace =>
    (.error ("Failed to connect after " ++ toString MAX_RETRIES ++ " retries: " ++ last.getD ""),
     trace)
  | remaining + 1, i, _, trace =>
    match conn i with
    | .ok (.ok t) => (.ok t, trace ++ [.attempt i])
    | .ok (.error e) => (.error e, trace ++ [.attempt i])
    | .error e => connectLoop conn remaining (i + 1) (some e) (trace ++ [.attempt i, .slept RETRY_DELAY_SECS])

def connect_with_retry (conn : Nat → Except String (Except String Unit)) :
    Except String Unit × List NetEvent :=
  connectLoop conn MAX_RETRIES 0 none []

def countAttempts (trace : List NetEvent) : Nat :=
  trace.countP fun ev => match ev with | .attempt _ => true | _ => false

/-! ### Helper lemmas -/

/-- FIPS 180-4 test vector validating the SHA-256 implementation. -/
theorem sha256_abc_test_vector : sha256 (strBytes "abc") =
    [0xba, 0x78, 0x16, 0xbf, 0x8f, 0x01, 0xcf, 0xea, 0x41, 0x41, 0x40, 0xde, 0x5d, 0xae, 0x22, 0x23,
     0xb0, 0x03, 0x61, 0xa3, 0x96, 0x17, 0x7a, 0x9c, 0xb4, 0x10, 0xff, 0x61, 0xf2, 0x00, 0x15, 0xad] := by
  decide

/-! ### Base64 decoder inverts the encoder on byte inputs -/

theorem b64Val_b64Char : ∀ i < 64, b64Val (b64Char i) = i := by decide

theorem b64Char_ne_61 : ∀ i < 64, b64Char i ≠ 61 := by decide

theorem base64_decode_encode :
    ∀ l : List Nat, (∀ x ∈ l, x < 256) → base64Decode (base64Encode l) = l
  | [], _ => rfl
  | [a], h => by
    have ha : a < 256 := h a (by simp)
    simp only [base64Encode, base64Decode, if_true]
    rw [b64Val_b64Char _ (by omega : a / 4 < 64),
        b64Val_b64Char _ (by omega : a % 4 * 16 < 64)]
    simp only [List.cons.injEq, and_true]
    omega
  | [a, b], h => by
    have ha : a < 256 := h a (by simp)
    have hb : b < 256 := h b (by simp)
    simp only [base64Encode, base64Decode]
    rw [if_neg (b64Char_ne_61 _ (by omega : b % 16 * 4 < 64)), if_pos trivial]
    rw [b64Val_b64Char _ (by omega : a / 4 < 64),
        b64Val_b64Char _ (by omega : a % 4 * 16 + b / 16 < 64),
        b64Val_b64Char _ (by omega : b % 16 * 4 < 64)]
    simp only [List.cons.injEq, and_true]
    omega
  | a :: b :: c :: rest, h => by
    have ha : a < 256 := h a (by simp)
    have hb : b < 256 := h b (by simp)
    have hc : c < 256 := h c (by simp)
    have htail : ∀ x ∈ rest, x < 256 := fun x hx => h x (by simp [hx])
    simp only [base64Encode, base64Decode]
    rw [if_neg (b64Char_ne_61 _ (by omega : b % 16 * 4 + c / 64 < 64)),
        if_neg (b64Char_ne_61 _ (by omega : c % 64 < 64))]
    rw [b64Val_b64Char _ (by omega : a / 4 < 64),
        b64Val_b64Char _ (by omega : a % 4 * 16 + b / 16 < 64),
        b64Val_b64Char _ (by omega : b % 16 * 4 + c / 64 < 64),
        b64Val_b64Char _ (by omega : c % 64 < 64)]
    rw [base64_decode_encode rest htail]
    simp only [List.cons.injEq, and_true]
    omega

theorem base64Encode_inj {l1 l2 : List Nat} (h1 : ∀ x ∈ l1, x < 256)
    (h2 : ∀ x ∈ l2, x < 256) (he : base64Encode l1 = base64Encode l2) : l1 = l2 := by
  rw [← base64_decode_encode l1 h1, ← base64_decode_encode l2 h2, he]

theorem wordBytes_lt {x w : Nat} (hx : x ∈ wordBytes w) : x < 256 := by
  simp only [wordBytes, List.mem_cons, List.not_mem_nil, or_false] at hx
  rcases hx with rfl | rfl | rfl | rfl <;> omega

theorem digestBytes_lt {x : Nat} {st : Sha256State} (hx : x ∈ digestBytes st) : x < 256 := by
  simp only [digestBytes, List.mem_append] at hx
  rcases hx with ((((((h | h) | h) | h) | h) | h) | h) | h <;> exact wordBytes_lt h

theorem sha256_lt {x : Nat} {msg : List Nat} (hx : x ∈ sha256 msg) : x < 256 :=
  digestBytes_lt (by simpa [sha256] using hx)


theorem verify_response_eq (server_key response_data signature : List Nat) :
    verify_response server_key response_data signature =
      (base64Encode (sha256 (response_data ++ server_key)) == signature) := by
  simp [verify_response, Sha256Hasher.new, Sha256Hasher.update, Sha256Hasher.finalize]

theorem streamGo_ok (chunks : List (List Nat)) (acc : List Nat) (total : Nat)
    (hne : ∀ ch ∈ chunks, ch ≠ []) (hnz : total ≠ 0 ∨ chunks ≠ []) :
    streamGo (chunks.map Except.ok) acc total = utf8Finish (acc ++ chunks.flatten) := by
  induction chunks generalizing acc total with
  | nil =>
    rcases hnz with h | h
    · simp [streamGo, h]
    · exact absurd rfl h
  | cons c rest ih =>
    have hc : c ≠ [] := hne c (by simp)
    have hlen : c.length ≠ 0 := fun h => hc (List.eq_nil_of_length_eq_zero h)
    simp only [List.map_cons, streamGo, if_neg hlen]
    rw [ih (acc ++ c) (total + c.length) (fun ch h => hne ch (by simp [h]))
        (Or.inl (by omega))]
    simp [List.append_assoc]

theorem sign_request_eta (key data : List Nat) :
    sign_request key data = base64Encode (sha256 (data ++ key)) := by
  simp [sign_request, Sha256Hasher.new, Sha256Hasher.update, Sha256Hasher.finalize]

/-! ### Claims -/

/-- Claim C1: for every client_id, timestamp, nonce and secret, `sign_request`
produces exactly `base64(SHA-256("{client_id}:{timestamp}:{nonce}" ++ secret_bytes))`;
for client_id "c1", timestamp 1000, nonce "n1" and secret "k1" the signature is
that of "c1:1000:n1" ++ "k1" (whose actual value is also pinned down). -/
theorem sign_request_spec :
    (∀ (client_id : List Nat) (timestamp : Nat) (nonce key : List Nat),
      sign_request key (data_to_sign client_id timestamp nonce) =
        base64Encode (sha256 (data_to_sign client_id timestamp nonce ++ key))) ∧
    sign_request (strBytes "k1") (data_to_sign (strBytes "c1") 1000 (strBytes "n1")) =
      base64Encode (sha256 (strBytes "c1:1000:n1" ++ strBytes "k1")) ∧
    sign_request (strBytes "k1") (data_to_sign (strBytes "c1") 1000 (strBytes "n1")) =
      strBytes "T0CDpsRSW0mbwLRvnQxg0W4R+cyedR4NyOoc75/V8MA=" :=
  ⟨fun cid ts nonce key => sign_request_eta key (data_to_sign cid ts nonce),
   by decide, by decide⟩

/-- Claim C2: signing is deterministic; verification with the same secret
accepts the produced signature; verification with a different secret whose
appended hash differs rejects it. -/
theorem signature_round_trip :
    (∀ key data : List Nat, sign_request key data = sign_request key data) ∧
    (∀ key data : List Nat, verify_response key data (sign_request key data) = true) ∧
    (∀ data k1 k2 : List Nat, sha256 (data ++ k1) ≠ sha256 (data ++ k2) →
      verify_response k2 data (sign_request k1 data) = false) := by
  refine ⟨fun _ _ => rfl, fun key data => ?_, fun data k1 k2 hne => ?_⟩
  · rw [verify_response_eq, sign_request_eta]
    exact beq_self_eq_true _
  · rw [verify_response_eq, sign_request_eta]
    refine beq_eq_false_iff_ne.mpr fun heq => hne ?_
    exact (base64Encode_inj (fun x hx => sha256_lt hx) (fun x hx => sha256_lt hx) heq).symm

/-- Witness for C2 at concrete inputs: secrets "a" and "b" over the empty
canonical string have different appended hashes, so verification rejects. -/
theorem signature_round_trip_witness :
    verify_response [98] [] (sign_request [97] []) = false :=
  signature_round_trip.2.2 [] [97] [98] (by decide)

/-- Claim C3: when the claimed signature differs from the hash recomputed
over the response with its signature cleared, `send_request` returns the
signature error and leaves the in-memory session and the session file
untouched (they are only written after successful verification). -/
theorem send_request_rejects_bad_signature
    (parse : List Nat → Except String Response) (env : ExchangeEnv) (c : Client)
    (wql_query : List Nat) (file : Option SessionInfo) (bytes : List Nat) (r : Response)
    (hw : env.write_result = .ok ())
    (hs : stream_response env.reads = .ok bytes)
    (hp : parse bytes = .ok r)
    (hsig : r.signature ≠
      base64Encode (sha256 (serializeResponse { r with signature := [] } ++ c.server_key))) :
    send_request parse env c wql_query file = (.error "Invalid response signature", c, file) := by
  have hv : verify_response c.server_key (serializeResponse { r with signature := [] })
      r.signature = false := by
    rw [verify_response_eq]
    exact beq_eq_false_iff_ne.mpr fun heq => hsig heq.symm
  simp only [send_request, hw, hs, hp, hv, Bool.false_eq_true, if_false]

/-- Witness for C3: a concrete response whose signature "!" does not match
the recomputed hash is rejected and the state is unchanged. -/
theorem send_request_rejects_bad_signature_witness :
    send_request (fun _ => .ok ⟨true, [100], [115], 5, [33]⟩)
      ⟨7, [110], .ok (), [.ok [65]], .ok ()⟩
      ⟨strBytes "client1", strBytes "test_key_1", strBytes "server_key", none⟩ [113] none =
      (.error "Invalid response signature",
       ⟨strBytes "client1", strBytes "test_key_1", strBytes "server_key", none⟩, none) :=
  send_request_rejects_bad_signature _ _ _ [113] none [65] ⟨true, [100], [115], 5, [33]⟩
    rfl rfl rfl (by decide)

/-- Claim C4 counterexample: with now = 10000, a matching record with
created_at = now - 3600 = 6400 gives `now - created_at = 3600 ≤ 3600`, so
`load_session` DOES load it, contrary to the claim that the cutoff is
inclusive (that a difference of exactly 3600 is expired). -/
theorem ttl_boundary_counterexample :
    load_session (some (some ⟨strBytes "s", strBytes "c1", 6400, 6400⟩)) 10000 (strBytes "c1") =
      some ⟨strBytes "s", strBytes "c1", 6400, 6400⟩ := by decide

/-- Claim C4 amended: a matching record with created_at = now - 3599 loads,
one with created_at = now - 3600 also loads (the code's condition is
`now - created_at <= 3600`, so expiry is strict at a difference of 3601),
and one with created_at = now - 3601 is not loaded. -/
theorem ttl_boundary_amended (now : Nat) (sid cid : List Nat) (lu : Nat)
    (h1 : 3601 ≤ now) (_h2 : now < U64) :
    load_session (some (some ⟨sid, cid, now - 3599, lu⟩)) now cid =
      some ⟨sid, cid, now - 3599, lu⟩ ∧
    load_session (some (some ⟨sid, cid, now - 3600, lu⟩)) now cid =
      some ⟨sid, cid, now - 3600, lu⟩ ∧
    load_session (some (some ⟨sid, cid, now - 3601, lu⟩)) now cid = none := by
  have e1 : u64sub now (now - 3599) = 3599 := by simp only [u64sub, U64]; omega
  have e2 : u64sub now (now - 3600) = 3600 := by simp only [u64sub, U64]; omega
  have e3 : u64sub now (now - 3601) = 3601 := by simp only [u64sub, U64]; omega
  refine ⟨?_, ?_, ?_⟩ <;> simp [load_session, e1, e2, e3]

/-- Witness for the amended C4 at now = 10000. -/
theorem ttl_boundary_amended_witness :
    load_session (some (some ⟨[115], [99], 6401, 0⟩)) 10000 [99] = some ⟨[115], [99], 6401, 0⟩ ∧
    load_session (some (some ⟨[115], [99], 6400, 0⟩)) 10000 [99] = some ⟨[115], [99], 6400, 0⟩ ∧
    load_session (some (some ⟨[115], [99], 6399, 0⟩)) 10000 [99] = none :=
  ttl_boundary_amended 10000 [115] [99] 0 (by decide) (by decide)

/-- Claim C5: `load_session` returns an `Option`, never an error; a missing
file, a malformed record, an expired record (`now - created_at > 3600` under
the code's u64 subtraction), and a client_id mismatch (identity isolation)
all collapse to `none`. -/
theorem load_session_never_errors :
    (∀ (now : Nat) (cid : List Nat), load_session none now cid = none) ∧
    (∀ (now : Nat) (cid : List Nat), load_session (some none) now cid = none) ∧
    (∀ (s : SessionInfo) (now : Nat) (cid : List Nat),
      u64sub now s.created_at > 3600 → load_session (some (some s)) now cid = none) ∧
    (∀ (s : SessionInfo) (now : Nat) (cid : List Nat),
      s.client_id ≠ cid → load_session (some (some s)) now cid = none) := by
  refine ⟨fun _ _ => rfl, fun _ _ => rfl, fun s now cid h => ?_, fun s now cid h => ?_⟩
  · simp only [load_session]
    rw [if_neg]
    rintro ⟨hle, -⟩
    omega
  · simp only [load_session]
    rw [if_neg]
    rintro ⟨-, hcid⟩
    exact h hcid

/-- Witness for C5: a session persisted under client "A" is not returned to
client "B". -/
theorem load_session_never_errors_witness :
    load_session (some (some ⟨[115], strBytes "A", 0, 0⟩)) 0 (strBytes "B") = none :=
  load_session_never_errors.2.2.2 ⟨[115], strBytes "A", 0, 0⟩ 0 (strBytes "B") (by decide)

/-- Claim C6 counterexample: the source retries only `TcpStream::connect`
failures; a TLS handshake failure propagates immediately via `?`.  A
connector whose first attempt fails at the handshake stage makes the
function return after a single attempt with the handshake error, not a
`NetworkError` after MAX_RETRIES attempts. -/
theorem retry_exhaustion_counterexample :
    connect_with_retry (fun _ => .ok (.error "tls handshake failed")) =
      (.error "tls handshake failed", [NetEvent.attempt 0]) ∧
    countAttempts [NetEvent.attempt 0] = 1 ∧ MAX_RETRIES = 3 := by decide

/-- Claim C6 amended: for a connector whose every attempt fails at the
TCP-connect stage, `connect_with_retry` returns the exhaustion error
carrying the last underlying cause after exactly MAX_RETRIES = 3 attempts,
with the fixed RETRY_DELAY between consecutive attempts (and one further
sleep after the last failure); a handshake failure instead propagates
immediately without retry. -/
theorem retry_exhaustion_amended (conn : Nat → Except String (Except String Unit))
    (causes : Nat → String) (h : ∀ i < MAX_RETRIES, conn i = .error (causes i)) :
    connect_with_retry conn =
      (.error ("Failed to connect after 3 retries: " ++ causes 2),
       [.attempt 0, .slept RETRY_DELAY_SECS, .attempt 1, .slept RETRY_DELAY_SECS,
        .attempt 2, .slept RETRY_DELAY_SECS]) := by
  have h0 := h 0 (by norm_num [MAX_RETRIES])
  have h1 := h 1 (by norm_num [MAX_RETRIES])
  have h2 := h 2 (by norm_num [MAX_RETRIES])
  simp only [connect_with_retry, MAX_RETRIES, connectLoop, h0, h1, h2]
  rfl

/-- Witness for the amended C6 with per-attempt causes "0", "1", "2". -/
theorem retry_exhaustion_amended_witness :
    connect_with_retry (fun i => .error (toString i)) =
      (.error ("Failed to connect after 3 retries: " ++ toString 2),
       [.attempt 0, .slept 1, .attempt 1, .slept 1, .attempt 2, .slept 1]) :=
  retry_exhaustion_amended (fun i => .error (toString i)) toString (fun _ _ => rfl)

/-- Claim C7 counterexample: `stream_response` converts the accumulated
bytes with `String::from_utf8`; a transport delivering the single byte
0xFF and closing yields the invalid-UTF-8 error, not those bytes. -/
theorem chunked_streaming_counterexample :
    stream_response [.ok [255]] = .error "Invalid UTF-8 sequence" := by decide

/-- Claim C7 amended: a transport delivering its bytes across K ≥ 1
non-empty reads (each at most BUFFER_SIZE) and then closing yields exactly
the concatenation of those bytes in order, provided they form valid UTF-8
(otherwise the invalid-UTF-8 error is returned, per the counterexample). -/
theorem chunked_streaming_amended (chunks : List (List Nat))
    (hK : chunks ≠ []) (hne : ∀ ch ∈ chunks, ch ≠ [])
    (_hsize : ∀ ch ∈ chunks, ch.length ≤ BUFFER_SIZE)
    (hutf : validUtf8 chunks.flatten = true) :
    stream_response (chunks.map Except.ok) = .ok chunks.flatten := by
  rw [stream_response, streamGo_ok chunks [] 0 hne (Or.inr hK)]
  simp [utf8Finish, hutf]

/-- Witness for the amended C7: bytes "hi" split across two reads are
reassembled in order. -/
theorem chunked_streaming_amended_witness :
    stream_response [.ok [104], .ok [105]] = .ok [104, 105] :=
  chunked_streaming_amended [[104], [105]] (by decide) (by decide) (by decide) (by decide)

/-- Claim C8: a zero-length read before any byte has been received (the
transport list being exhausted at once, or an immediate `Ok(0)`) yields the
distinguished "Connection closed by server" error rather than an empty
success; a zero-length read after at least one byte is a normal end of
stream. -/
theorem early_close_distinction :
    (stream_response [] = .error "Connection closed by server") ∧
    (∀ rest, stream_response (.ok [] :: rest) = .error "Connection closed by server") ∧
    (∀ (c : List Nat) (rest : List (Except String (List Nat))),
      c ≠ [] → validUtf8 c = true → stream_response (.ok c :: .ok [] :: rest) = .ok c) := by
  refine ⟨rfl, fun rest => rfl, fun c rest hc hv => ?_⟩
  have hlen : c.length ≠ 0 := fun h => hc (List.eq_nil_of_length_eq_zero h)
  simp only [stream_response, streamGo, if_neg hlen, List.length_nil, List.nil_append]
  simp [utf8Finish, hv, hlen]

/-- Witness for C8: one byte then a zero-length read ends the stream
normally, ignoring anything the transport might have delivered later. -/
theorem early_close_distinction_witness :
    stream_response [.ok [65], .ok [], .ok [255]] = .ok [65] :=
  early_close_distinction.2.2 [65] [.ok [255]] (by decide) (by decide)

/-- Claim C9: when write, streaming, parsing and verification all succeed,
`send_request` installs a new session built from the response's session_id
with created_at = last_used = the captured timestamp, persists it (an I/O
failure of the save propagates as the returned error), and returns the
verified response. -/
theorem send_request_success_updates_session
    (parse : List Nat → Except String Response) (env : ExchangeEnv) (c : Client)
    (wql_query : List Nat) (file : Option SessionInfo) (bytes : List Nat) (r : Response)
    (hw : env.write_result = .ok ())
    (hs : stream_response env.reads = .ok bytes)
    (hp : parse bytes = .ok r)
    (hv : verify_response c.server_key (serializeResponse { r with signature := [] })
      r.signature = true) :
    (env.save_result = .ok () →
      send_request parse env c wql_query file =
        (.ok r,
         { c with session := some ⟨r.session_id, c.client_id, env.timestamp, env.timestamp⟩ },
         some ⟨r.session_id, c.client_id, env.timestamp, env.timestamp⟩)) ∧
    (∀ e, env.save_result = .error e →
      send_request parse env c wql_query file =
        (.error e,
         { c with session := some ⟨r.session_id, c.client_id, env.timestamp, env.timestamp⟩ },
         file)) := by
  constructor
  · intro hsave
    simp only [send_request, hw, hs, hp, hv, if_true, save_session, hsave]
  · intro e hsave
    simp only [send_request, hw, hs, hp, hv, if_true, save_session, hsave]

/-- Witness for C9: a concrete exchange whose response carries the correct
recomputed signature is accepted, the session is persisted from its
session_id and the timestamp 7, and the response is returned. -/
theorem send_request_success_updates_session_witness :
    send_request
      (fun _ => .ok ⟨true, [100], [115], 5,
        base64Encode (sha256 (serializeResponse ⟨true, [100], [115], 5, []⟩ ++
          strBytes "server_key"))⟩)
      ⟨7, [110], .ok (), [.ok [65]], .ok ()⟩
      ⟨strBytes "client1", strBytes "test_key_1", strBytes "server_key", none⟩ [113] none =
      (.ok ⟨true, [100], [115], 5,
        base64Encode (sha256 (serializeResponse ⟨true, [100], [115], 5, []⟩ ++
          strBytes "server_key"))⟩,
       ⟨strBytes "client1", strBytes "test_key_1", strBytes "server_key",
        some ⟨[115], strBytes "client1", 7, 7⟩⟩,
       some ⟨[115], strBytes "client1", 7, 7⟩) :=
  (send_request_success_updates_session
    (fun _ => .ok ⟨true, [100], [115], 5,
      base64Encode (sha256 (serializeResponse ⟨true, [100], [115], 5, []⟩ ++
        strBytes "server_key"))⟩)
    ⟨7, [110], .ok (), [.ok [65]], .ok ()⟩
    ⟨strBytes "client1", strBytes "test_key_1", strBytes "server_key", none⟩
    [113] none [65]
    ⟨true, [100], [115], 5,
      base64Encode (sha256 (serializeResponse ⟨true, [100], [115], 5, []⟩ ++
        strBytes "server_key"))⟩
    rfl rfl rfl (by rw [verify_response_eq]; exact beq_self_eq_true _)).1 rfl

/-- Claim C10 counterexample: the claim asserts that EVERY future-dated
record is rejected because the wrapped subtraction exceeds 3600.  But with
now = 0 and created_at = 2^64 - 1 the wrapped difference is 1 ≤ 3600, and
the record is accepted. -/
theorem wraparound_counterexample :
    load_session (some (some ⟨[115], [99], U64 - 1, 0⟩)) 0 [99] =
      some ⟨[115], [99], U64 - 1, 0⟩ := by decide

/-- Claim C10 amended: for a future-dated record (created_at > now) with
created_at - now < 2^64 - 3600 — which always holds once now ≥ 3601 — the
wrapped subtraction exceeds 3600 and `load_session` returns absent; only
records future-dated by at least 2^64 - 3600 wrap to a small difference. -/
theorem wraparound_amended (now created_at : Nat) (sid cid : List Nat) (lu : Nat)
    (h1 : created_at < U64) (h2 : now < created_at)
    (h3 : created_at - now < U64 - 3600) :
    u64sub now created_at > 3600 ∧
    load_session (some (some ⟨sid, cid, created_at, lu⟩)) now cid = none := by
  have hgt : u64sub now created_at > 3600 := by simp only [u64sub, U64] at *; omega
  refine ⟨hgt, ?_⟩
  simp only [load_session]
  rw [if_neg]
  rintro ⟨hle, -⟩
  omega

/-- Witness for the amended C10: a record future-dated by 1000 seconds is
rejected. -/
theorem wraparound_amended_witness :
    u64sub 5000 6000 > 3600 ∧
    load_session (some (some ⟨[115], [99], 6000, 0⟩)) 5000 [99] = none :=
  wraparound_amended 5000 6000 [115] [99] 0 (by decide) (by decide) (by decide)
